import Mathlib

/-!
Verification of the PSD Procedural Logic Engine.

Shallow embedding of the geometric remapping and hierarchical reconstruction
engine of the repository (src/components/ExportPSDNode.tsx, the `RemapperNode`
and `ExportPSDNode` components, plus the shared type declarations in
src/unnamed/part_000).  JavaScript numbers are modelled as exact rationals
(`ℚ`); all concrete values appearing in the claims (0.25, 22.5, 0.03, ...)
are dyadic and representable exactly in both models.  JavaScript strings are
modelled as `String` (a wrapper around `List Char`), JS `undefined`-able
values as `Option`, and the JS `Map` used by the validator as an
insertion-ordered association list with overwrite-on-set semantics.
-/

/-! ## Geometry and strategy data model (src/unnamed/part_000) -/

/-- A rectangle `{x, y, w, h}`, as used throughout the source for
`bounds` / `coords` values. -/
structure Rect where
  x : ℚ
  y : ℚ
  w : ℚ
  h : ℚ
deriving DecidableEq, Repr

/-- `MAX_BOUNDARY_VIOLATION_PERCENT = 0.03` (src/unnamed/part_000 line 4). -/
def MAX_BOUNDARY_VIOLATION_PERCENT : ℚ := 3 / 100

/-- The `type` field of a `SerializableLayer`: `layer | group`. -/
inductive LayerType where
  | layer
  | group
deriving DecidableEq, Repr

/-- `LayerOverride` (src/unnamed/part_000 lines 63-68). -/
structure LayerOverride where
  layerId : String
  xOffset : ℚ
  yOffset : ℚ
  individualScale : ℚ
deriving DecidableEq, Repr

/-- The vertical anchor tag of a `LayoutStrategy`:
`TOP | CENTER | BOTTOM | STRETCH`. -/
inductive AnchorMode where
  | TOP
  | CENTER
  | BOTTOM
  | STRETCH
deriving DecidableEq, Repr

/-- `safetyReport` field of `LayoutStrategy`. -/
structure SafetyReport where
  allowedBleed : Bool
  violationCount : ℕ
deriving DecidableEq, Repr

/-- `LayoutStrategy` (src/unnamed/part_000 lines 70-80). -/
structure LayoutStrategy where
  suggestedScale : ℚ
  anchor : AnchorMode
  generativePrompt : String
  reasoning : String
  overrides : Option (List LayerOverride)
  safetyReport : Option SafetyReport
deriving DecidableEq, Repr

/-- `SerializableLayer` (src/unnamed/part_000 lines 46-59): the lightweight
source element tree.  `children` is `undefined` for plain layers, hence
`Option (List _)`. -/
inductive SerializableLayer where
  | mk (id : String) (name : String) (ltype : LayerType) (isVisible : Bool)
       (opacity : ℚ) (coords : Rect)
       (children : Option (List SerializableLayer))
deriving Repr

def SerializableLayer.id : SerializableLayer → String
  | .mk i _ _ _ _ _ _ => i

def SerializableLayer.name : SerializableLayer → String
  | .mk _ n _ _ _ _ _ => n

def SerializableLayer.ltype : SerializableLayer → LayerType
  | .mk _ _ t _ _ _ _ => t

def SerializableLayer.isVisible : SerializableLayer → Bool
  | .mk _ _ _ v _ _ _ => v

def SerializableLayer.opacity : SerializableLayer → ℚ
  | .mk _ _ _ _ o _ _ => o

def SerializableLayer.coords : SerializableLayer → Rect
  | .mk _ _ _ _ _ c _ => c

def SerializableLayer.children : SerializableLayer → Option (List SerializableLayer)
  | .mk _ _ _ _ _ _ cs => cs

/-- The child list of a source layer, with `undefined` read as the empty
list (used to state child-related properties uniformly). -/
def SerializableLayer.childList (l : SerializableLayer) : List SerializableLayer :=
  match l.children with
  | none => []
  | some cs => cs

/-- The `transform` record carried by a `TransformedLayer`
(src/unnamed/part_000 lines 83-88). -/
structure TransformRec where
  scaleX : ℚ
  scaleY : ℚ
  offsetX : ℚ
  offsetY : ℚ
deriving DecidableEq, Repr

/-- `TransformedLayer` (src/unnamed/part_000 lines 82-90): a
`SerializableLayer` plus the applied transform record. -/
inductive TransformedLayer where
  | mk (id : String) (name : String) (ltype : LayerType) (isVisible : Bool)
       (opacity : ℚ) (coords : Rect) (transform : TransformRec)
       (children : Option (List TransformedLayer))
deriving Repr

def TransformedLayer.id : TransformedLayer → String
  | .mk i _ _ _ _ _ _ _ => i

def TransformedLayer.name : TransformedLayer → String
  | .mk _ n _ _ _ _ _ _ => n

def TransformedLayer.ltype : TransformedLayer → LayerType
  | .mk _ _ t _ _ _ _ _ => t

def TransformedLayer.isVisible : TransformedLayer → Bool
  | .mk _ _ _ v _ _ _ _ => v

def TransformedLayer.opacity : TransformedLayer → ℚ
  | .mk _ _ _ _ o _ _ _ => o

def TransformedLayer.coords : TransformedLayer → Rect
  | .mk _ _ _ _ _ c _ _ => c

def TransformedLayer.transform : TransformedLayer → TransformRec
  | .mk _ _ _ _ _ _ tr _ => tr

def TransformedLayer.children : TransformedLayer → Option (List TransformedLayer)
  | .mk _ _ _ _ _ _ _ cs => cs

/-- The child list of a transformed layer, `undefined` read as empty. -/
def TransformedLayer.childList (l : TransformedLayer) : List TransformedLayer :=
  match l.children with
  | none => []
  | some cs => cs

/-! ## Transform Resolver (ExportPSDNode.tsx lines 430-464, RemapperNode)

The resolver computes the base `scale`, `anchorX`, `anchorY` used for a
whole remap instance: default uniform-fit + centering when no strategy is
injected, caller-supplied scale and anchor-tag-driven vertical placement
when one is. -/

/-- Result of the `scale` / `anchorX` / `anchorY` computation of
`RemapperNode`. -/
structure ResolvedTransform where
  scale : ℚ
  anchorX : ℚ
  anchorY : ℚ
deriving DecidableEq, Repr

/-- Lines 430-464 of the source: `ratioX`/`ratioY`/`scale` defaults,
then either the strategy branch (suggested scale, horizontal centering,
anchor-tag vertical placement) or the default centering branch.
Note the source performs the two divisions unconditionally: there is no
input-validation guard on the source dimensions (claim C3). -/
def resolveTransform (sourceRect targetRect : Rect)
    (strategy : Option LayoutStrategy) : ResolvedTransform :=
  let ratioX := targetRect.w / sourceRect.w
  let ratioY := targetRect.h / sourceRect.h
  let scale := min ratioX ratioY
  match strategy with
  | some strat =>
      let scale := strat.suggestedScale
      let scaledW := sourceRect.w * scale
      let scaledH := sourceRect.h * scale
      let anchorX := targetRect.x + (targetRect.w - scaledW) / 2
      let anchorY :=
        match strat.anchor with
        | .TOP => targetRect.y
        | .BOTTOM => targetRect.y + (targetRect.h - scaledH)
        | _ => targetRect.y + (targetRect.h - scaledH) / 2
      ⟨scale, anchorX, anchorY⟩
  | none =>
      let scaledW := sourceRect.w * scale
      let scaledH := sourceRect.h * scale
      let anchorX := targetRect.x + (targetRect.w - scaledW) / 2
      let anchorY := targetRect.y + (targetRect.h - scaledH) / 2
      ⟨scale, anchorX, anchorY⟩

/-! ## Recursive Tree Transformer (ExportPSDNode.tsx lines 467-539) -/

/-- The values the `transformLayers` closure captures from its enclosing
scope: the source/target rects, the resolved base scale and anchors, and
the injected strategy. -/
structure TransformCtx where
  sourceRect : Rect
  targetRect : Rect
  scale : ℚ
  anchorX : ℚ
  anchorY : ℚ
  strategy : Option LayoutStrategy
deriving Repr

/-- Builds the transform context exactly as the `RemapperNode` does:
resolve first, then hand the resolved values to the tree walk. -/
def mkCtx (sourceRect targetRect : Rect) (strategy : Option LayoutStrategy) :
    TransformCtx :=
  let r := resolveTransform sourceRect targetRect strategy
  ⟨sourceRect, targetRect, r.scale, r.anchorX, r.anchorY, strategy⟩

/-- `strategy?.overrides?.find(o => o.layerId === layer.id)` (line 490). -/
def findOverride (strategy : Option LayoutStrategy) (layerId : String) :
    Option LayerOverride :=
  match strategy with
  | none => none
  | some s =>
      match s.overrides with
      | none => none
      | some os => os.find? (fun o => o.layerId == layerId)

/-- The pure geometric X placement of a rect under a context
(lines 475-478): `anchorX + relX * (sourceRect.w * scale)`. -/
def geomOfX (ctx : TransformCtx) (c : Rect) : ℚ :=
  ctx.anchorX + ((c.x - ctx.sourceRect.x) / ctx.sourceRect.w) * (ctx.sourceRect.w * ctx.scale)

/-- The pure geometric Y placement of a rect under a context
(lines 476-479). -/
def geomOfY (ctx : TransformCtx) (c : Rect) : ℚ :=
  ctx.anchorY + ((c.y - ctx.sourceRect.y) / ctx.sourceRect.h) * (ctx.sourceRect.h * ctx.scale)

/-- The vertical boundary clamp of lines 514-520:
`Math.max(minY, Math.min(v, maxY))` with the fixed 3% bleed band around
the target rect. -/
def clampY (targetRect : Rect) (v : ℚ) : ℚ :=
  let bleedY := targetRect.h * MAX_BOUNDARY_VIOLATION_PERCENT
  let minY := targetRect.y - bleedY
  let maxY := targetRect.y + targetRect.h + bleedY
  max minY (min v maxY)

mutual

/-- One step of the recursive transformation engine (lines 472-537):
geometric baseline, inherited delta, optional override (absolute
repositioning, scale multiplication, new child delta), vertical clamp,
size scaling, and recursion into the children with the current delta. -/
def transformLayer (ctx : TransformCtx) (layer : SerializableLayer)
    (parentDeltaX parentDeltaY : ℚ) : TransformedLayer :=
  match layer with
  | .mk lid lname lt vis opac coords children =>
      let relX := (coords.x - ctx.sourceRect.x) / ctx.sourceRect.w
      let relY := (coords.y - ctx.sourceRect.y) / ctx.sourceRect.h
      let geomX := ctx.anchorX + relX * (ctx.sourceRect.w * ctx.scale)
      let geomY := ctx.anchorY + relY * (ctx.sourceRect.h * ctx.scale)
      let ov := findOverride ctx.strategy lid
      let (finalX, preClampY, currentDeltaX, currentDeltaY, layerScaleX, layerScaleY) :=
        match ov with
        | some o =>
            let aiX := ctx.targetRect.x + o.xOffset
            let aiY := ctx.targetRect.y + o.yOffset
            (aiX, aiY, aiX - geomX, aiY - geomY,
             ctx.scale * o.individualScale, ctx.scale * o.individualScale)
        | none =>
            (geomX + parentDeltaX, geomY + parentDeltaY,
             parentDeltaX, parentDeltaY, ctx.scale, ctx.scale)
      let bleedY := ctx.targetRect.h * MAX_BOUNDARY_VIOLATION_PERCENT
      let minY := ctx.targetRect.y - bleedY
      let maxY := ctx.targetRect.y + ctx.targetRect.h + bleedY
      let finalY := max minY (min preClampY maxY)
      let newW := coords.w * layerScaleX
      let newH := coords.h * layerScaleY
      .mk lid lname lt vis opac
        ⟨finalX, finalY, newW, newH⟩
        ⟨layerScaleX, layerScaleY, finalX, finalY⟩
        (match children with
         | none => none
         | some cs => some (transformLayers ctx cs currentDeltaX currentDeltaY))

/-- `layers.map(...)` of the engine, on a whole sibling list. -/
def transformLayers (ctx : TransformCtx) (layers : List SerializableLayer)
    (parentDeltaX parentDeltaY : ℚ) : List TransformedLayer :=
  match layers with
  | [] => []
  | l :: rest =>
      transformLayer ctx l parentDeltaX parentDeltaY ::
        transformLayers ctx rest parentDeltaX parentDeltaY

end

/-! ## Payload (src/unnamed/part_000 lines 125-136, built at
ExportPSDNode.tsx lines 543-554) -/

/-- Width/height pair used inside `metrics`. -/
structure SizeWH where
  w : ℚ
  h : ℚ
deriving DecidableEq, Repr

/-- The `metrics` diagnostics record of a payload. -/
structure PayloadMetrics where
  source : SizeWH
  target : SizeWH
deriving DecidableEq, Repr

/-- `status` field of a payload: `success | error | idle`. -/
inductive PayloadStatus where
  | success
  | error
  | idle
deriving DecidableEq, Repr

/-- `TransformedPayload` (src/unnamed/part_000 lines 125-136). -/
structure TransformedPayload where
  status : PayloadStatus
  sourceNodeId : String
  sourceContainer : String
  targetContainer : String
  layers : List TransformedLayer
  scaleFactor : ℚ
  metrics : PayloadMetrics
deriving Repr

/-- The full per-instance computation of the `RemapperNode`
(lines 426-554): resolve the transform, run the tree walk with zero
inherited delta, and package the payload. -/
def computePayload (sourceRect targetRect : Rect)
    (strategy : Option LayoutStrategy)
    (sourceNodeId sourceName targetName : String)
    (layers : List SerializableLayer) : TransformedPayload :=
  let r := resolveTransform sourceRect targetRect strategy
  let ctx : TransformCtx :=
    ⟨sourceRect, targetRect, r.scale, r.anchorX, r.anchorY, strategy⟩
  { status := .success
    sourceNodeId := sourceNodeId
    sourceContainer := sourceName
    targetContainer := targetName
    layers := transformLayers ctx layers 0 0
    scaleFactor := r.scale
    metrics := ⟨⟨sourceRect.w, sourceRect.h⟩, ⟨targetRect.w, targetRect.h⟩⟩ }

/-! ## Template data model (src/unnamed/part_000 lines 6-30) -/

/-- `ContainerDefinition` (src/unnamed/part_000 lines 6-22). -/
structure ContainerDefinition where
  id : String
  name : String
  originalName : String
  bounds : Rect
  normalized : Rect
deriving DecidableEq, Repr

/-- Canvas dimensions of a template. -/
structure CanvasSize where
  width : ℚ
  height : ℚ
deriving DecidableEq, Repr

/-- `TemplateMetadata` (src/unnamed/part_000 lines 24-30). -/
structure TemplateMetadata where
  canvas : CanvasSize
  containers : List ContainerDefinition
deriving Repr

/-! ## Procedural Integrity Validator (ExportPSDNode.tsx lines 12-69)

The validator folds over the graph edges, collecting correctly-matched
payloads into a JS `Map` keyed by slot name and mismatched wirings into an
error list, and derives the `isFullyAssembled` readiness flag. -/

/-- A reactflow edge as consumed by the validator: source/target node ids
plus optional handle ids. -/
structure FlowEdge where
  source : String
  target : String
  sourceHandle : Option String
  targetHandle : Option String
deriving DecidableEq, Repr

/-- `s.take n` on the underlying character list. -/
def strTake (s : String) (n : ℕ) : String := ⟨s.data.take n⟩

/-- `s.drop n` on the underlying character list. -/
def strDrop (s : String) (n : ℕ) : String := ⟨s.data.drop n⟩

/-- `targetHandle startsWith the input- tag` (line 35). -/
def startsWithInput (s : String) : Bool := strTake s 6 == "input-"

/-- The replace of the input- tag by the empty string (line 38).  Under
the startsWith guard the first occurrence of the tag is the
6-character leading tag, so replacing it by the empty string is dropping
those 6 characters. -/
def stripInputTag (s : String) : String := strDrop s 6

/-- `Map.set` of the JS `Map` collecting slot connections: overwrite the
value when the key is present (keeping insertion order), append otherwise.
`Map.size` is the length of this list. -/
def mapSet (m : List (String × TransformedPayload)) (k : String)
    (v : TransformedPayload) : List (String × TransformedPayload) :=
  if m.any (fun kv => kv.1 == k) then
    m.map (fun kv => if kv.1 == k then (k, v) else kv)
  else m ++ [(k, v)]

/-- The violation message pushed on a semantic mismatch (line 53),
with the declared destination and the occupied slot interpolated. -/
def violationMsg (semanticTarget slotName : String) : String :=
  "PROCEDURAL VIOLATION: Payload targeting " ++ semanticTarget ++
    " is miswired to slot " ++ slotName ++ "."

/-- The `payloadRegistry` of the store: node id to handle id to payload
(two levels of JS-object indexing, both possibly missing). -/
def PayloadRegistry : Type := String → Option (String → Option TransformedPayload)

/-- The body of the `edges.forEach` of lines 31-58, as a fold step:
skip edges not targeting this node or not wired to an `input-` handle,
fetch the payload by source node and source handle, then either record
the connection (semantic target matches the occupied slot) or push a
procedural-violation message. -/
def processEdge (nodeId : String) (payloadRegistry : PayloadRegistry)
    (acc : List (String × TransformedPayload) × List String)
    (edge : FlowEdge) : List (String × TransformedPayload) × List String :=
  if edge.target ≠ nodeId then acc
  else
    match edge.targetHandle with
    | none => acc
    | some th =>
        if startsWithInput th then
          let slotName := stripInputTag th
          let payload :=
            match payloadRegistry edge.source with
            | none => none
            | some handles => handles (edge.sourceHandle.getD "")
          match payload with
          | none => acc
          | some p =>
              if p.targetContainer = slotName then (mapSet acc.1 slotName p, acc.2)
              else (acc.1, acc.2 ++ [violationMsg p.targetContainer slotName])
        else acc

/-- The `slotConnections` / `validationErrors` pair of lines 27-61:
fold all edges starting from the empty map and no errors. -/
def slotConnections (nodeId : String) (edges : List FlowEdge)
    (payloadRegistry : PayloadRegistry) :
    List (String × TransformedPayload) × List String :=
  edges.foldl (processEdge nodeId payloadRegistry) ([], [])

/-- `templateMetadata?.containers || []` (line 24). -/
def containersOf (templateMetadata : Option TemplateMetadata) :
    List ContainerDefinition :=
  match templateMetadata with
  | none => []
  | some t => t.containers

/-- Lines 63-69: `isFullyAssembled = isTemplateReady && filledSlots ===
totalSlots && totalSlots > 0 && validationErrors.length === 0`. -/
def isFullyAssembled (templateMetadata : Option TemplateMetadata)
    (nodeId : String) (edges : List FlowEdge)
    (payloadRegistry : PayloadRegistry) : Bool :=
  let conns := slotConnections nodeId edges payloadRegistry
  let totalSlots := (containersOf templateMetadata).length
  let filledSlots := conns.1.length
  let isTemplateReady := templateMetadata.isSome
  isTemplateReady && (filledSlots == totalSlots) &&
    (decide (0 < totalSlots)) && (conns.2.length == 0)

/-! ## Hierarchy Reconstructor (ExportPSDNode.tsx lines 78-153)

The reconstructor maps the transformed metadata tree back onto the
original heavy layers of the loaded document.  The heavy `Layer` tree of
the external `ag-psd` binding is modelled with the properties the
reconstruction reads or writes (bounds, hidden, opacity, opened,
children) plus `name` and `blendMode` standing for the preserved
styling properties carried over by the object spread. -/

/-- A heavy document layer.  Per spec section 6 the loader supplies the
heavy tree keyed by the same stable identifier as the lightweight tree,
so the identifier is part of the model. -/
inductive PsdLayer where
  | mk (id : String) (name : String) (top left bottom right : ℚ)
       (hidden : Bool) (opacity : ℚ) (opened : Bool) (blendMode : String)
       (children : Option (List PsdLayer))
deriving Repr

def PsdLayer.id : PsdLayer → String
  | .mk i _ _ _ _ _ _ _ _ _ _ => i

def PsdLayer.name : PsdLayer → String
  | .mk _ n _ _ _ _ _ _ _ _ _ => n

def PsdLayer.top : PsdLayer → ℚ
  | .mk _ _ t _ _ _ _ _ _ _ _ => t

def PsdLayer.left : PsdLayer → ℚ
  | .mk _ _ _ l _ _ _ _ _ _ _ => l

def PsdLayer.bottom : PsdLayer → ℚ
  | .mk _ _ _ _ b _ _ _ _ _ _ => b

def PsdLayer.right : PsdLayer → ℚ
  | .mk _ _ _ _ _ r _ _ _ _ _ => r

def PsdLayer.hidden : PsdLayer → Bool
  | .mk _ _ _ _ _ _ h _ _ _ _ => h

def PsdLayer.opacity : PsdLayer → ℚ
  | .mk _ _ _ _ _ _ _ o _ _ _ => o

def PsdLayer.opened : PsdLayer → Bool
  | .mk _ _ _ _ _ _ _ _ op _ _ => op

def PsdLayer.blendMode : PsdLayer → String
  | .mk _ _ _ _ _ _ _ _ _ bm _ => bm

def PsdLayer.children : PsdLayer → Option (List PsdLayer)
  | .mk _ _ _ _ _ _ _ _ _ _ cs => cs

/-- The loaded heavy document (`Psd` of the `ag-psd` binding): canvas
size plus the heavy layer tree. -/
structure Psd where
  width : ℚ
  height : ℚ
  children : List PsdLayer
deriving Repr

mutual

/-- Modelled from the spec: `findLayerByPath` lives in
src/services/psdService, which is not part of the provided sources.  Per
spec sections 4.3 and 6 it is the deterministic stable-identifier lookup
in the original document: a depth-first search returning the first heavy
layer carrying the identifier, and nothing when the identifier is absent. -/
def findLayerInList (lid : String) (layers : List PsdLayer) : Option PsdLayer :=
  match layers with
  | [] => none
  | l :: rest =>
      match findLayerOne lid l with
      | some r => some r
      | none => findLayerInList lid rest

/-- Modelled from the spec: one step of the stable-identifier search —
the layer itself, then its subtree. -/
def findLayerOne (lid : String) (l : PsdLayer) : Option PsdLayer :=
  match l with
  | .mk i _ _ _ _ _ _ _ _ _ cs =>
      if i = lid then some l
      else
        match cs with
        | none => none
        | some children => findLayerInList lid children

end

/-- Modelled from the spec: `findLayerByPath(sourcePsd, id)` searches the
whole document for the stable identifier. -/
def findLayerByPath (sourcePsd : Psd) (lid : String) : Option PsdLayer :=
  findLayerInList lid sourcePsd.children

mutual

/-- `reconstructHierarchy` (ExportPSDNode.tsx lines 88-120): for each
transformed metadata layer, look the original heavy layer up by its
stable identifier; when found, emit the rebuilt layer — when not found
the guard `if (originalLayer)` has no else branch, so the element is
skipped and the loop continues with the remaining elements. -/
def reconstructHierarchy (transformedLayers : List TransformedLayer)
    (sourcePsd : Psd) : List PsdLayer :=
  match transformedLayers with
  | [] => []
  | metaLayer :: rest =>
      match findLayerByPath sourcePsd metaLayer.id with
      | some originalLayer =>
          reconstructOne metaLayer originalLayer sourcePsd ::
            reconstructHierarchy rest sourcePsd
      | none => reconstructHierarchy rest sourcePsd

/-- Lines 99-116: spread the original layer (preserving its identity and
styling), override the bounds from the transformed coords, the hidden
flag from the visibility, the opacity rescaled to the 0-255 domain, and
clear the children — repopulating them recursively, marked expanded,
when the metadata layer is a group carrying a child array. -/
def reconstructOne (metaLayer : TransformedLayer) (originalLayer : PsdLayer)
    (sourcePsd : Psd) : PsdLayer :=
  match metaLayer with
  | .mk _ _ mtype mvis mopac mcoords _ mchildren =>
      match originalLayer with
      | .mk oid oname _ _ _ _ _ _ oopened oblend _ =>
          match mtype, mchildren with
          | .group, some mcs =>
              .mk oid oname mcoords.y mcoords.x (mcoords.y + mcoords.h)
                (mcoords.x + mcoords.w) (!mvis) (mopac * 255) true oblend
                (some (reconstructHierarchy mcs sourcePsd))
          | _, _ =>
              .mk oid oname mcoords.y mcoords.x (mcoords.y + mcoords.h)
                (mcoords.x + mcoords.w) (!mvis) (mopac * 255) oopened oblend
                none

end

mutual

/-- All elements of a transformed subtree: the node and, recursively,
everything below it. -/
def layerElems (t : TransformedLayer) : List TransformedLayer :=
  t ::
    (match t with
     | .mk _ _ _ _ _ _ _ none => []
     | .mk _ _ _ _ _ _ _ (some cs) => listElems cs)

/-- All elements of a transformed forest. -/
def listElems (ts : List TransformedLayer) : List TransformedLayer :=
  match ts with
  | [] => []
  | t :: rest => layerElems t ++ listElems rest

end

/-- The structural skeleton of a layer tree: identifier, kind, and the
(ordered) children — exactly the data claim C7 says is preserved. -/
inductive LShape where
  | node (id : String) (ltype : LayerType) (children : Option (List LShape))

mutual

/-- Skeleton of a source layer. -/
def shapeOfLayer (l : SerializableLayer) : LShape :=
  match l with
  | .mk i _ t _ _ _ none => .node i t none
  | .mk i _ t _ _ _ (some cs) => .node i t (some (shapeOfForest cs))

/-- Skeleton of a source forest. -/
def shapeOfForest (ls : List SerializableLayer) : List LShape :=
  match ls with
  | [] => []
  | l :: rest => shapeOfLayer l :: shapeOfForest rest

end

mutual

/-- Skeleton of a transformed layer. -/
def shapeOfTLayer (t : TransformedLayer) : LShape :=
  match t with
  | .mk i _ lt _ _ _ _ none => .node i lt none
  | .mk i _ lt _ _ _ _ (some cs) => .node i lt (some (shapeOfTForest cs))

/-- Skeleton of a transformed forest. -/
def shapeOfTForest (ts : List TransformedLayer) : List LShape :=
  match ts with
  | [] => []
  | t :: rest => shapeOfTLayer t :: shapeOfTForest rest

end

/-- The final Y of the first child of a transformed element (0 when there
are no children) — a convenience projection for concrete statements. -/
def firstChildY (t : TransformedLayer) : ℚ :=
  match t.childList with
  | [] => 0
  | c :: _ => c.coords.y

/-- Scenario edge for the validator property: a wiring into the
`input-<name>` handle of the export node, sourced from node `s-<name>`. -/
def mkSlotEdge (nm : String) : FlowEdge :=
  { source := "s-" ++ nm, target := "export-1",
    sourceHandle := some "out", targetHandle := some ("input-" ++ nm) }

/-- Scenario payload declaring destination `tc`. -/
def mkSlotPayload (tc : String) : TransformedPayload :=
  { status := .success, sourceNodeId := "load-1", sourceContainer := tc,
    targetContainer := tc, layers := [], scaleFactor := 1,
    metrics := ⟨⟨1, 1⟩, ⟨1, 1⟩⟩ }

/-- Scenario payload registry: the payload produced by source node
`s-<name>` declares destination `<name>`, except for the distinguished
`bad` name, whose payload declares the different destination `X<name>` —
a semantically miswired payload. -/
def scenarioRegistry (bad : String) : PayloadRegistry :=
  fun src =>
    let nm := strDrop src 2
    if nm = bad then some (fun _ => some (mkSlotPayload ("X" ++ nm)))
    else some (fun _ => some (mkSlotPayload nm))

/-- Scenario container for a slot name. -/
def mkSlotContainer (nm : String) : ContainerDefinition :=
  { id := nm, name := nm, originalName := nm,
    bounds := ⟨0, 0, 1, 1⟩, normalized := ⟨0, 0, 1, 1⟩ }

/-- Scenario template with one container per name. -/
def scenarioTemplate (names : List String) : TemplateMetadata :=
  { canvas := ⟨100, 100⟩, containers := names.map mkSlotContainer }

/-! ## General helper lemmas -/

theorem str_data_append (a b : String) : (a ++ b).data = a.data ++ b.data := by
  cases a
  cases b
  rfl

theorem strTake_append (p s : String) : strTake (p ++ s) p.data.length = p := by
  unfold strTake
  rw [str_data_append, List.take_left]

theorem strDrop_append (p s : String) : strDrop (p ++ s) p.data.length = s := by
  unfold strDrop
  rw [str_data_append, List.drop_left]

theorem startsWithInput_append (nm : String) :
    startsWithInput ("input-" ++ nm) = true := by
  have h := strTake_append "input-" nm
  simp only [startsWithInput, show ("input-" : String).data.length = 6 from rfl] at h ⊢
  simp [h]

theorem stripInputTag_append (nm : String) :
    stripInputTag ("input-" ++ nm) = nm := by
  have h := strDrop_append "input-" nm
  simpa only [stripInputTag, show ("input-" : String).data.length = 6 from rfl] using h

theorem strDrop_src_append (nm : String) : strDrop ("s-" ++ nm) 2 = nm := by
  have h := strDrop_append "s-" nm
  simpa only [show ("s-" : String).data.length = 2 from rfl] using h

theorem mismatch_tag_ne (b : String) : ("X" ++ b) ≠ b := by
  intro h
  have h2 := congrArg (fun s => s.data.length) h
  simp only [str_data_append, List.length_append] at h2
  rw [show ("X" : String).data.length = 1 from rfl] at h2
  omega

theorem mapSet_of_new (m : List (String × TransformedPayload)) (k : String)
    (v : TransformedPayload) (h : ∀ kv ∈ m, kv.1 ≠ k) :
    mapSet m k v = m ++ [(k, v)] := by
  unfold mapSet
  have : (m.any (fun kv => kv.1 == k)) = false := by
    simp only [List.any_eq_false, beq_iff_eq]
    intro kv hm
    exact h kv hm
  simp [this]

theorem find_first_match {α : Type} (p : α → Bool) (pre post : List α) (o : α)
    (hpre : ∀ x ∈ pre, p x = false) (ho : p o = true) :
    (pre ++ o :: post).find? p = some o := by
  induction pre with
  | nil => simp [List.find?_cons, ho]
  | cons a rest ih =>
      have ha : p a = false := hpre a (by simp)
      simp only [List.cons_append, List.find?_cons, ha]
      exact ih (fun x hx => hpre x (by simp [hx]))

/-- The clamp keeps values inside `[a, b]` as soon as the band is
non-degenerate. -/
theorem clamp_bounds (a b v : ℚ) (hab : a ≤ b) :
    a ≤ max a (min v b) ∧ max a (min v b) ≤ b :=
  ⟨le_max_left _ _, max_le hab (min_le_right _ _)⟩

/-! ## Claim C3 — no `InvalidGeometry` rejection in the resolver

The spec demands `sourceRect.w > 0 && sourceRect.h > 0` be enforced as a
precondition, a zero dimension being rejected before any transform math.
The source (lines 430-435) computes `ratioX = targetRect.w / sourceRect.w`
and `ratioY = targetRect.h / sourceRect.h` with no guard whatsoever: the
resolver is a total function that proceeds with the division (in the
JavaScript source a zero denominator silently yields `Infinity`, not an
error).  The theorem evaluates the embedded resolver at a source rect of
width zero: it returns an ordinary transform record — the horizontal
anchor `35` is what the unvalidated math produces (`scaledW = 0 * scale =
0`, hence `anchorX = 10 + (50 - 0) / 2 = 35`, in the JS float semantics as
well) — instead of failing. -/

/-- Claim C3: the claim says a zero source dimension is rejected as an
input-validation failure before any transform math; the code has no such
guard — the resolver computes a transform for the degenerate input. -/
theorem C3_zero_dimension_not_rejected :
    (resolveTransform ⟨0, 0, 0, 100⟩ ⟨10, 10, 50, 50⟩ none).anchorX = 35 := by
  norm_num [resolveTransform, min_def]

/-! ## Claim C4 — default (strategy-less) resolution -/

/-- Claim C4: with no strategy the resolved transform is the uniform-fit scale
`min(tw/sw, th/sh)` with the scaled source rect centered in the target on
both axes; concretely, for source `{0,0,100,200}` and target
`{10,10,50,50}` the scale is `0.25`, the anchor is `(22.5, 10)`, and an
element whose rect equals the source rect is transformed to the final
rect `{22.5, 10, 25, 50}`. -/
theorem C4_default_resolve :
    (∀ (src tgt : Rect), 0 < src.w → 0 < src.h →
        resolveTransform src tgt none =
          ⟨min (tgt.w / src.w) (tgt.h / src.h),
           tgt.x + (tgt.w - src.w * min (tgt.w / src.w) (tgt.h / src.h)) / 2,
           tgt.y + (tgt.h - src.h * min (tgt.w / src.w) (tgt.h / src.h)) / 2⟩) ∧
    resolveTransform ⟨0, 0, 100, 200⟩ ⟨10, 10, 50, 50⟩ none = ⟨1/4, 45/2, 10⟩ ∧
    (transformLayer (mkCtx ⟨0, 0, 100, 200⟩ ⟨10, 10, 50, 50⟩ none)
        (.mk "root" "root" .layer true 1 ⟨0, 0, 100, 200⟩ none) 0 0).coords =
      ⟨45/2, 10, 25, 50⟩ := by
  refine ⟨fun src tgt _ _ => rfl, ?_, ?_⟩
  · norm_num [resolveTransform, min_def]
  · norm_num [transformLayer, mkCtx, resolveTransform, findOverride,
      TransformedLayer.coords, min_def, max_def, MAX_BOUNDARY_VIOLATION_PERCENT]

/-- Witness for C4: the general default-resolution formula applied at the
concrete positive-dimension source rect of the end-to-end scenario. -/
theorem C4_default_resolve_witness :
    resolveTransform ⟨0, 0, 100, 200⟩ ⟨10, 10, 50, 50⟩ none =
      ⟨min ((50 : ℚ)/100) ((50 : ℚ)/200),
       10 + (50 - 100 * min ((50 : ℚ)/100) ((50 : ℚ)/200)) / 2,
       10 + (50 - 200 * min ((50 : ℚ)/100) ((50 : ℚ)/200)) / 2⟩ :=
  C4_default_resolve.1 ⟨0, 0, 100, 200⟩ ⟨10, 10, 50, 50⟩ (by norm_num) (by norm_num)

/-! ## Claim C8 — strategy-driven resolution -/

/-- Claim C8: with a strategy the resolver takes `scale = strategy.suggestedScale`
unrecomputed, always centers horizontally with that scale, and places the
vertical anchor by the anchor tag — `TOP` at the target top, `BOTTOM`
bottom-aligned, and `CENTER` as well as any other tag (`STRETCH`
included) vertically centered. -/
theorem C8_strategy_resolve :
    (∀ (src tgt : Rect) (s : LayoutStrategy),
        resolveTransform src tgt (some s) =
          ⟨s.suggestedScale,
           tgt.x + (tgt.w - src.w * s.suggestedScale) / 2,
           match s.anchor with
           | .TOP => tgt.y
           | .BOTTOM => tgt.y + (tgt.h - src.h * s.suggestedScale)
           | _ => tgt.y + (tgt.h - src.h * s.suggestedScale) / 2⟩) ∧
    (∀ (src tgt : Rect) (s : LayoutStrategy), s.anchor = .STRETCH →
        (resolveTransform src tgt (some s)).anchorY =
          tgt.y + (tgt.h - src.h * s.suggestedScale) / 2) ∧
    (∀ (src tgt : Rect) (s : LayoutStrategy), s.anchor = .CENTER →
        (resolveTransform src tgt (some s)).anchorY =
          tgt.y + (tgt.h - src.h * s.suggestedScale) / 2) := by
  refine ⟨?_, ?_, ?_⟩
  · intro src tgt s
    obtain ⟨sc, anch, gp, rs, ov, sr⟩ := s
    cases anch <;> rfl
  · intro src tgt s h
    obtain ⟨sc, anch, gp, rs, ov, sr⟩ := s
    cases anch
    · simp at h
    · simp at h
    · simp at h
    · rfl
  · intro src tgt s h
    obtain ⟨sc, anch, gp, rs, ov, sr⟩ := s
    cases anch
    · simp at h
    · rfl
    · simp at h
    · simp at h

/-- Witness for C8: the `STRETCH` tag concretely falls through to the
vertically centered anchor. -/
theorem C8_strategy_resolve_witness :
    (resolveTransform ⟨0, 0, 100, 200⟩ ⟨10, 10, 50, 50⟩
        (some ⟨1/2, .STRETCH, "", "", none, none⟩)).anchorY =
      10 + (50 - 200 * (1/2)) / 2 :=
  C8_strategy_resolve.2.1 ⟨0, 0, 100, 200⟩ ⟨10, 10, 50, 50⟩
    ⟨1/2, .STRETCH, "", "", none, none⟩ rfl

/-! ## Unfolding lemmas for the tree transformer -/

/-- One transform step when a strategy override matches the element:
absolute repositioning from the target origin, clamped vertically,
scale multiplied by the individual scale, and the children processed
with the newly induced delta (measured against the pre-clamp position). -/
theorem transformLayer_override (ctx : TransformCtx) (l : SerializableLayer)
    (dX dY : ℚ) (o : LayerOverride)
    (h : findOverride ctx.strategy l.id = some o) :
    transformLayer ctx l dX dY =
      .mk l.id l.name l.ltype l.isVisible l.opacity
        ⟨ctx.targetRect.x + o.xOffset,
         clampY ctx.targetRect (ctx.targetRect.y + o.yOffset),
         l.coords.w * (ctx.scale * o.individualScale),
         l.coords.h * (ctx.scale * o.individualScale)⟩
        ⟨ctx.scale * o.individualScale, ctx.scale * o.individualScale,
         ctx.targetRect.x + o.xOffset,
         clampY ctx.targetRect (ctx.targetRect.y + o.yOffset)⟩
        (match l.children with
         | none => none
         | some cs =>
             some (transformLayers ctx cs
               ((ctx.targetRect.x + o.xOffset) - geomOfX ctx l.coords)
               ((ctx.targetRect.y + o.yOffset) - geomOfY ctx l.coords))) := by
  cases l with
  | mk lid lname lt vis opac coords children =>
      simp only [SerializableLayer.id] at h
      cases children with
      | none =>
          simp only [transformLayer, h, SerializableLayer.id, SerializableLayer.name,
            SerializableLayer.ltype, SerializableLayer.isVisible,
            SerializableLayer.opacity, SerializableLayer.coords,
            SerializableLayer.children, clampY, geomOfX, geomOfY]
      | some cs =>
          simp only [transformLayer, h, SerializableLayer.id, SerializableLayer.name,
            SerializableLayer.ltype, SerializableLayer.isVisible,
            SerializableLayer.opacity, SerializableLayer.coords,
            SerializableLayer.children, clampY, geomOfX, geomOfY]

/-- One transform step when no override matches: geometric placement plus
the inherited delta, clamped vertically, base scale, and the children
processed with the unchanged inherited delta. -/
theorem transformLayer_no_override (ctx : TransformCtx) (l : SerializableLayer)
    (dX dY : ℚ) (h : findOverride ctx.strategy l.id = none) :
    transformLayer ctx l dX dY =
      .mk l.id l.name l.ltype l.isVisible l.opacity
        ⟨geomOfX ctx l.coords + dX,
         clampY ctx.targetRect (geomOfY ctx l.coords + dY),
         l.coords.w * ctx.scale, l.coords.h * ctx.scale⟩
        ⟨ctx.scale, ctx.scale, geomOfX ctx l.coords + dX,
         clampY ctx.targetRect (geomOfY ctx l.coords + dY)⟩
        (match l.children with
         | none => none
         | some cs => some (transformLayers ctx cs dX dY)) := by
  cases l with
  | mk lid lname lt vis opac coords children =>
      simp only [SerializableLayer.id] at h
      cases children with
      | none =>
          simp only [transformLayer, h, SerializableLayer.id, SerializableLayer.name,
            SerializableLayer.ltype, SerializableLayer.isVisible,
            SerializableLayer.opacity, SerializableLayer.coords,
            SerializableLayer.children, clampY, geomOfX, geomOfY]
      | some cs =>
          simp only [transformLayer, h, SerializableLayer.id, SerializableLayer.name,
            SerializableLayer.ltype, SerializableLayer.isVisible,
            SerializableLayer.opacity, SerializableLayer.coords,
            SerializableLayer.children, clampY, geomOfX, geomOfY]

theorem transformLayers_nil (ctx : TransformCtx) (dX dY : ℚ) :
    transformLayers ctx [] dX dY = [] := by
  simp [transformLayers]

/-- Children of an overridden element are processed with the delta induced
by the override, measured against the pure geometric placement and the
pre-clamp override position. -/
theorem childList_transformLayer_override (ctx : TransformCtx)
    (l : SerializableLayer) (dX dY : ℚ) (o : LayerOverride)
    (h : findOverride ctx.strategy l.id = some o) :
    (transformLayer ctx l dX dY).childList =
      transformLayers ctx l.childList
        ((ctx.targetRect.x + o.xOffset) - geomOfX ctx l.coords)
        ((ctx.targetRect.y + o.yOffset) - geomOfY ctx l.coords) := by
  rw [transformLayer_override ctx l dX dY o h]
  cases hc : l.children with
  | none =>
      simp [TransformedLayer.childList, TransformedLayer.children,
        SerializableLayer.childList, hc, transformLayers]
  | some cs =>
      simp [TransformedLayer.childList, TransformedLayer.children,
        SerializableLayer.childList, hc]

/-- Children of an element without an override inherit the very same delta
the element itself received. -/
theorem childList_transformLayer_no_override (ctx : TransformCtx)
    (l : SerializableLayer) (dX dY : ℚ)
    (h : findOverride ctx.strategy l.id = none) :
    (transformLayer ctx l dX dY).childList =
      transformLayers ctx l.childList dX dY := by
  rw [transformLayer_no_override ctx l dX dY h]
  cases hc : l.children with
  | none =>
      simp [TransformedLayer.childList, TransformedLayer.children,
        SerializableLayer.childList, hc, transformLayers]
  | some cs =>
      simp [TransformedLayer.childList, TransformedLayer.children,
        SerializableLayer.childList, hc]


theorem layerElems_mk (i n : String) (lt : LayerType) (v : Bool) (o : ℚ)
    (c : Rect) (tr : TransformRec) (cs : Option (List TransformedLayer)) :
    layerElems (.mk i n lt v o c tr cs) =
      .mk i n lt v o c tr cs ::
        (match cs with
         | none => []
         | some csl => listElems csl) := by
  cases cs with
  | none => simp [layerElems]
  | some csl => simp [layerElems]

mutual

/-- Every element of a transformed subtree has its Y inside the bleed
band (code form of the bounds). -/
theorem yBound_layer (ctx : TransformCtx) (hh : 0 ≤ ctx.targetRect.h)
    (l : SerializableLayer) (dX dY : ℚ) :
    ∀ t ∈ layerElems (transformLayer ctx l dX dY),
      ctx.targetRect.y - ctx.targetRect.h * MAX_BOUNDARY_VIOLATION_PERCENT ≤
          t.coords.y ∧
        t.coords.y ≤
          ctx.targetRect.y + ctx.targetRect.h +
            ctx.targetRect.h * MAX_BOUNDARY_VIOLATION_PERCENT := by
  cases l with
  | mk lid lname lt vis opac coords children =>
      intro t ht
      have hband : ctx.targetRect.y - ctx.targetRect.h * MAX_BOUNDARY_VIOLATION_PERCENT ≤
          ctx.targetRect.y + ctx.targetRect.h +
            ctx.targetRect.h * MAX_BOUNDARY_VIOLATION_PERCENT := by
        have h1 : 0 ≤ ctx.targetRect.h * MAX_BOUNDARY_VIOLATION_PERCENT :=
          mul_nonneg hh (by norm_num [MAX_BOUNDARY_VIOLATION_PERCENT])
        linarith
      rcases hov : findOverride ctx.strategy lid with _ | o
      · rw [transformLayer_no_override ctx (.mk lid lname lt vis opac coords children)
          dX dY (by simp only [SerializableLayer.id]; exact hov)] at ht
        rw [layerElems_mk] at ht
        rcases List.mem_cons.mp ht with h1 | h1
        · subst h1
          refine ⟨?_, ?_⟩
          · simp [TransformedLayer.coords, clampY]
          · simpa [TransformedLayer.coords, clampY] using
              (clamp_bounds _ _ (geomOfY ctx (SerializableLayer.coords
                (.mk lid lname lt vis opac coords children)) + dY) hband).2
        · cases children with
          | none => simp [SerializableLayer.children] at h1
          | some cs =>
              simp only [SerializableLayer.children] at h1
              exact yBound_list ctx hh cs dX dY t h1
      · rw [transformLayer_override ctx (.mk lid lname lt vis opac coords children)
          dX dY o (by simp only [SerializableLayer.id]; exact hov)] at ht
        rw [layerElems_mk] at ht
        rcases List.mem_cons.mp ht with h1 | h1
        · subst h1
          refine ⟨?_, ?_⟩
          · simp [TransformedLayer.coords, clampY]
          · simpa [TransformedLayer.coords, clampY] using
              (clamp_bounds _ _ (ctx.targetRect.y + o.yOffset) hband).2
        · cases children with
          | none => simp [SerializableLayer.children] at h1
          | some cs =>
              simp only [SerializableLayer.children] at h1
              exact yBound_list ctx hh cs _ _ t h1

/-- Every element of a transformed forest has its Y inside the bleed
band (code form of the bounds). -/
theorem yBound_list (ctx : TransformCtx) (hh : 0 ≤ ctx.targetRect.h)
    (ls : List SerializableLayer) (dX dY : ℚ) :
    ∀ t ∈ listElems (transformLayers ctx ls dX dY),
      ctx.targetRect.y - ctx.targetRect.h * MAX_BOUNDARY_VIOLATION_PERCENT ≤
          t.coords.y ∧
        t.coords.y ≤
          ctx.targetRect.y + ctx.targetRect.h +
            ctx.targetRect.h * MAX_BOUNDARY_VIOLATION_PERCENT := by
  match ls with
  | [] =>
      intro t ht
      simp [transformLayers, listElems] at ht
  | l :: rest =>
      intro t ht
      simp only [transformLayers, listElems] at ht
      rcases List.mem_append.mp ht with h1 | h1
      · exact yBound_layer ctx hh l dX dY t h1
      · exact yBound_list ctx hh rest dX dY t h1

end

/-! ## Claim C6 — vertical clamping invariant, no horizontal clamp -/

/-- Claim C6: for every context with a (spec-invariant) non-negative target
height, every strategy, tree and inherited delta, each transformed
element's final Y lies in the bleed band
`[targetRect.y - h*p, targetRect.y + h*(1+p)]` with `p = 0.03`; the X
position, in contrast, is exactly the unclamped computed value — the
override position or the geometric placement plus delta — and can land
arbitrarily far outside the analogous horizontal band (the concrete
element at `x = 10000` maps to `x = 2522.5`, far beyond the target's
`[10, 60]` span, while its Y is clamped to `61.5`). -/
theorem C6_vertical_clamp_horizontal_free :
    (∀ (ctx : TransformCtx), 0 ≤ ctx.targetRect.h →
      ∀ (layers : List SerializableLayer) (dX dY : ℚ),
        ∀ t ∈ listElems (transformLayers ctx layers dX dY),
          ctx.targetRect.y - ctx.targetRect.h * MAX_BOUNDARY_VIOLATION_PERCENT ≤
              t.coords.y ∧
            t.coords.y ≤
              ctx.targetRect.y +
                ctx.targetRect.h * (1 + MAX_BOUNDARY_VIOLATION_PERCENT)) ∧
    (∀ (ctx : TransformCtx) (l : SerializableLayer) (dX dY : ℚ),
        (transformLayer ctx l dX dY).coords.x =
          match findOverride ctx.strategy l.id with
          | some o => ctx.targetRect.x + o.xOffset
          | none => geomOfX ctx l.coords + dX) ∧
    (transformLayer (mkCtx ⟨0, 0, 100, 200⟩ ⟨10, 10, 50, 50⟩ none)
        (.mk "far" "far" .layer true 1 ⟨10000, 10000, 1, 1⟩ none) 0 0).coords =
      ⟨5045/2, 123/2, 1/4, 1/4⟩ := by
  refine ⟨?_, ?_, ?_⟩
  · intro ctx hh layers dX dY t ht
    obtain ⟨h1, h2⟩ := yBound_list ctx hh layers dX dY t ht
    constructor
    · exact h1
    · have : ctx.targetRect.h * (1 + MAX_BOUNDARY_VIOLATION_PERCENT) =
          ctx.targetRect.h + ctx.targetRect.h * MAX_BOUNDARY_VIOLATION_PERCENT := by
        ring
      linarith
  · intro ctx l dX dY
    rcases hov : findOverride ctx.strategy l.id with _ | o
    · rw [transformLayer_no_override ctx l dX dY hov]
      simp [TransformedLayer.coords]
    · rw [transformLayer_override ctx l dX dY o hov]
      simp [TransformedLayer.coords]
  · norm_num [transformLayer, mkCtx, resolveTransform, findOverride,
      TransformedLayer.coords, min_def, max_def, MAX_BOUNDARY_VIOLATION_PERCENT]

/-- Witness for C6: the clamp bounds evaluated at a concrete transformed
element of the end-to-end scenario (target height 50 ≥ 0). -/
theorem C6_vertical_clamp_witness :
    (10 : ℚ) - 50 * MAX_BOUNDARY_VIOLATION_PERCENT ≤
        (TransformedLayer.mk "a" "a" .layer true 1 ⟨45/2, 10, 25, 50⟩
          ⟨1/4, 1/4, 45/2, 10⟩ none).coords.y ∧
      (TransformedLayer.mk "a" "a" .layer true 1 ⟨45/2, 10, 25, 50⟩
          ⟨1/4, 1/4, 45/2, 10⟩ none).coords.y ≤
        10 + 50 * (1 + MAX_BOUNDARY_VIOLATION_PERCENT) :=
  C6_vertical_clamp_horizontal_free.1
    (mkCtx ⟨0, 0, 100, 200⟩ ⟨10, 10, 50, 50⟩ none)
    (by show (0 : ℚ) ≤ 50; norm_num)
    [.mk "a" "a" .layer true 1 ⟨0, 0, 100, 200⟩ none] 0 0
    (.mk "a" "a" .layer true 1 ⟨45/2, 10, 25, 50⟩ ⟨1/4, 1/4, 45/2, 10⟩ none)
    (by
      have h : listElems (transformLayers
          (mkCtx ⟨0, 0, 100, 200⟩ ⟨10, 10, 50, 50⟩ none)
          [.mk "a" "a" .layer true 1 ⟨0, 0, 100, 200⟩ none] 0 0) =
            [.mk "a" "a" .layer true 1 ⟨45/2, 10, 25, 50⟩
              ⟨1/4, 1/4, 45/2, 10⟩ none] := by
        norm_num [listElems, layerElems, transformLayers, transformLayer, mkCtx,
          resolveTransform, findOverride, min_def, max_def,
          MAX_BOUNDARY_VIOLATION_PERCENT]
      rw [h]
      exact List.mem_singleton.mpr rfl)

/-! ## Claim C7 — shape preservation and the transform record -/


mutual

/-- The transformer preserves the skeleton of a single subtree. -/
theorem shape_layer (ctx : TransformCtx) (l : SerializableLayer) (dX dY : ℚ) :
    shapeOfTLayer (transformLayer ctx l dX dY) = shapeOfLayer l := by
  cases l with
  | mk lid lname lt vis opac coords children =>
      rcases hov : findOverride ctx.strategy lid with _ | o
      · rw [transformLayer_no_override ctx (.mk lid lname lt vis opac coords children)
          dX dY (by simp only [SerializableLayer.id]; exact hov)]
        cases children with
        | none =>
            simp [shapeOfTLayer, shapeOfLayer, SerializableLayer.id,
              SerializableLayer.name, SerializableLayer.ltype,
              SerializableLayer.isVisible, SerializableLayer.opacity,
              SerializableLayer.children]
        | some cs =>
            simp only [shapeOfTLayer, shapeOfLayer, SerializableLayer.id,
              SerializableLayer.name, SerializableLayer.ltype,
              SerializableLayer.isVisible, SerializableLayer.opacity,
              SerializableLayer.children, LShape.node.injEq, Option.some.injEq]
            exact ⟨trivial, trivial, shape_forest ctx cs dX dY⟩
      · rw [transformLayer_override ctx (.mk lid lname lt vis opac coords children)
          dX dY o (by simp only [SerializableLayer.id]; exact hov)]
        cases children with
        | none =>
            simp [shapeOfTLayer, shapeOfLayer, SerializableLayer.id,
              SerializableLayer.name, SerializableLayer.ltype,
              SerializableLayer.isVisible, SerializableLayer.opacity,
              SerializableLayer.children]
        | some cs =>
            simp only [shapeOfTLayer, shapeOfLayer, SerializableLayer.id,
              SerializableLayer.name, SerializableLayer.ltype,
              SerializableLayer.isVisible, SerializableLayer.opacity,
              SerializableLayer.children, LShape.node.injEq, Option.some.injEq]
            exact ⟨trivial, trivial, shape_forest ctx cs _ _⟩

/-- The transformer preserves the skeleton of a whole forest. -/
theorem shape_forest (ctx : TransformCtx) (ls : List SerializableLayer)
    (dX dY : ℚ) :
    shapeOfTForest (transformLayers ctx ls dX dY) = shapeOfForest ls := by
  match ls with
  | [] => simp [transformLayers, shapeOfTForest, shapeOfForest]
  | l :: rest =>
      simp only [transformLayers, shapeOfTForest, shapeOfForest, List.cons.injEq]
      exact ⟨shape_layer ctx l dX dY, shape_forest ctx rest dX dY⟩

end

mutual

/-- In every transformed subtree the transform record's offsets equal the
final top-left position of the element. -/
theorem offsets_layer (ctx : TransformCtx) (l : SerializableLayer) (dX dY : ℚ) :
    ∀ t ∈ layerElems (transformLayer ctx l dX dY),
      t.transform.offsetX = t.coords.x ∧ t.transform.offsetY = t.coords.y := by
  cases l with
  | mk lid lname lt vis opac coords children =>
      intro t ht
      rcases hov : findOverride ctx.strategy lid with _ | o
      · rw [transformLayer_no_override ctx (.mk lid lname lt vis opac coords children)
          dX dY (by simp only [SerializableLayer.id]; exact hov)] at ht
        rw [layerElems_mk] at ht
        rcases List.mem_cons.mp ht with h1 | h1
        · subst h1
          simp [TransformedLayer.transform, TransformedLayer.coords]
        · cases children with
          | none => simp [SerializableLayer.children] at h1
          | some cs =>
              simp only [SerializableLayer.children] at h1
              exact offsets_list ctx cs dX dY t h1
      · rw [transformLayer_override ctx (.mk lid lname lt vis opac coords children)
          dX dY o (by simp only [SerializableLayer.id]; exact hov)] at ht
        rw [layerElems_mk] at ht
        rcases List.mem_cons.mp ht with h1 | h1
        · subst h1
          simp [TransformedLayer.transform, TransformedLayer.coords]
        · cases children with
          | none => simp [SerializableLayer.children] at h1
          | some cs =>
              simp only [SerializableLayer.children] at h1
              exact offsets_list ctx cs _ _ t h1

/-- Offset/position agreement over a whole transformed forest. -/
theorem offsets_list (ctx : TransformCtx) (ls : List SerializableLayer)
    (dX dY : ℚ) :
    ∀ t ∈ listElems (transformLayers ctx ls dX dY),
      t.transform.offsetX = t.coords.x ∧ t.transform.offsetY = t.coords.y := by
  match ls with
  | [] =>
      intro t ht
      simp [transformLayers, listElems] at ht
  | l :: rest =>
      intro t ht
      simp only [transformLayers, listElems] at ht
      rcases List.mem_append.mp ht with h1 | h1
      · exact offsets_layer ctx l dX dY t h1
      · exact offsets_list ctx rest dX dY t h1

end

/-- Claim C7: the transformed tree has exactly the identifiers, kinds and child
ordering of the input tree (one output element per input element), and
every output element's `{scaleX, scaleY, offsetX, offsetY}` record carries
as offsets the element's final top-left position, not a delta. -/
theorem C7_shape_preserved_offsets_absolute :
    (∀ (ctx : TransformCtx) (layers : List SerializableLayer) (dX dY : ℚ),
        shapeOfTForest (transformLayers ctx layers dX dY) = shapeOfForest layers) ∧
    (∀ (ctx : TransformCtx) (layers : List SerializableLayer) (dX dY : ℚ),
        ∀ t ∈ listElems (transformLayers ctx layers dX dY),
          t.transform.offsetX = t.coords.x ∧ t.transform.offsetY = t.coords.y) :=
  ⟨fun ctx layers dX dY => shape_forest ctx layers dX dY,
   fun ctx layers dX dY => offsets_list ctx layers dX dY⟩

/-- Witness for C7: offsets equal the final position on the concrete
transformed element of the end-to-end scenario. -/
theorem C7_shape_preserved_witness :
    (TransformedLayer.mk "a" "a" .layer true 1 ⟨45/2, 10, 25, 50⟩
        ⟨1/4, 1/4, 45/2, 10⟩ none).transform.offsetX =
      (TransformedLayer.mk "a" "a" .layer true 1 ⟨45/2, 10, 25, 50⟩
        ⟨1/4, 1/4, 45/2, 10⟩ none).coords.x ∧
    (TransformedLayer.mk "a" "a" .layer true 1 ⟨45/2, 10, 25, 50⟩
        ⟨1/4, 1/4, 45/2, 10⟩ none).transform.offsetY =
      (TransformedLayer.mk "a" "a" .layer true 1 ⟨45/2, 10, 25, 50⟩
        ⟨1/4, 1/4, 45/2, 10⟩ none).coords.y :=
  C7_shape_preserved_offsets_absolute.2
    (mkCtx ⟨0, 0, 100, 200⟩ ⟨10, 10, 50, 50⟩ none)
    [.mk "a" "a" .layer true 1 ⟨0, 0, 100, 200⟩ none] 0 0
    (.mk "a" "a" .layer true 1 ⟨45/2, 10, 25, 50⟩ ⟨1/4, 1/4, 45/2, 10⟩ none)
    (by
      have h : listElems (transformLayers
          (mkCtx ⟨0, 0, 100, 200⟩ ⟨10, 10, 50, 50⟩ none)
          [.mk "a" "a" .layer true 1 ⟨0, 0, 100, 200⟩ none] 0 0) =
            [.mk "a" "a" .layer true 1 ⟨45/2, 10, 25, 50⟩
              ⟨1/4, 1/4, 45/2, 10⟩ none] := by
        norm_num [listElems, layerElems, transformLayers, transformLayer, mkCtx,
          resolveTransform, findOverride, min_def, max_def,
          MAX_BOUNDARY_VIOLATION_PERCENT]
      rw [h]
      exact List.mem_singleton.mpr rfl)

/-! ## Claim C10 — first-match-wins override precedence -/

/-- Claim C10: when the strategy's override list contains several overrides for
the same element identifier, `overrides.find(...)` applies exactly the
first one in list order: for any decomposition `pre ++ o :: post` of the
override list in which nothing in `pre` matches the element and `o` does,
the element is positioned and scaled by `o` — whatever (possibly also
matching) overrides follow in `post`. -/
theorem C10_first_matching_override_wins :
    ∀ (ctx : TransformCtx) (l : SerializableLayer) (dX dY : ℚ)
      (s : LayoutStrategy) (pre post : List LayerOverride) (o : LayerOverride),
      ctx.strategy = some s →
      s.overrides = some (pre ++ o :: post) →
      (∀ o2 ∈ pre, o2.layerId ≠ l.id) →
      o.layerId = l.id →
      (transformLayer ctx l dX dY).coords.x = ctx.targetRect.x + o.xOffset ∧
      (transformLayer ctx l dX dY).coords.y =
        clampY ctx.targetRect (ctx.targetRect.y + o.yOffset) ∧
      (transformLayer ctx l dX dY).transform.scaleX =
        ctx.scale * o.individualScale ∧
      (transformLayer ctx l dX dY).transform.scaleY =
        ctx.scale * o.individualScale := by
  intro ctx l dX dY s pre post o hs hov hpre ho
  have hfind : findOverride ctx.strategy l.id = some o := by
    rw [hs]
    simp only [findOverride, hov]
    apply find_first_match
    · intro x hx
      simp only [beq_eq_false_iff_ne, ne_eq]
      exact hpre x hx
    · simp [ho]
  rw [transformLayer_override ctx l dX dY o hfind]
  simp [TransformedLayer.coords, TransformedLayer.transform]

/-- Witness for C10: with two overrides for the root identifier the first
one (offset 5, scale 2) is applied, not the second (offset 7, scale 3). -/
theorem C10_first_matching_override_wins_witness :
    (transformLayer
        (mkCtx ⟨0, 0, 100, 200⟩ ⟨10, 10, 50, 50⟩
          (some ⟨1/4, .CENTER, "", "",
            some [⟨"root", 5, 5, 2⟩, ⟨"root", 7, 7, 3⟩], none⟩))
        (.mk "root" "root" .group true 1 ⟨0, 0, 100, 200⟩ none) 0 0).coords.x =
      10 + 5 :=
  (C10_first_matching_override_wins
    (mkCtx ⟨0, 0, 100, 200⟩ ⟨10, 10, 50, 50⟩
      (some ⟨1/4, .CENTER, "", "",
        some [⟨"root", 5, 5, 2⟩, ⟨"root", 7, 7, 3⟩], none⟩))
    (.mk "root" "root" .group true 1 ⟨0, 0, 100, 200⟩ none) 0 0
    ⟨1/4, .CENTER, "", "", some [⟨"root", 5, 5, 2⟩, ⟨"root", 7, 7, 3⟩], none⟩
    [] [⟨"root", 7, 7, 3⟩] ⟨"root", 5, 5, 2⟩
    rfl rfl (by intro o2 h2; simp at h2) rfl).1


/-! ## Claim C5 — override semantics and delta propagation

The claim is almost exactly what the code does, with one gap: it asserts a
descendant without an override of an overridden element lands at its
pure-geometric position plus the induced delta *exactly*, and that the
override puts the element itself at the absolute override position; both
positions are in fact still subject to the vertical boundary clamp of
lines 514-520, which runs after the override branch for every element.
When the resulting Y leaves the 3% bleed band the element is clamped and
the equality fails (the counterexample below); inside the band both
statements hold exactly, and the X coordinate is never clamped. -/

/-- Claim C5 counterexample: with an override `{xOffset:0, yOffset:1000,
individualScale:1}` on the root of the §8 geometry, the override-less
child's pure-geometric position plus the root's induced delta is `1010`,
but the transformed child's final Y is the clamp bound `61.5` — the claim
as stated (exact equality) is false on the code. -/
theorem C5_counterexample_clamped_descendant :
    firstChildY (transformLayer
        (mkCtx ⟨0, 0, 100, 200⟩ ⟨10, 10, 50, 50⟩
          (some ⟨1/4, .CENTER, "", "", some [⟨"root", 0, 1000, 1⟩], none⟩))
        (.mk "root" "root" .group true 1 ⟨0, 0, 100, 200⟩
          (some [.mk "d" "d" .layer true 1 ⟨0, 0, 10, 10⟩ none])) 0 0) =
      123/2 ∧
    geomOfY (mkCtx ⟨0, 0, 100, 200⟩ ⟨10, 10, 50, 50⟩
        (some ⟨1/4, .CENTER, "", "", some [⟨"root", 0, 1000, 1⟩], none⟩))
        ⟨0, 0, 10, 10⟩ +
      (((10 : ℚ) + 1000) -
        geomOfY (mkCtx ⟨0, 0, 100, 200⟩ ⟨10, 10, 50, 50⟩
          (some ⟨1/4, .CENTER, "", "", some [⟨"root", 0, 1000, 1⟩], none⟩))
          ⟨0, 0, 100, 200⟩) = 1010 ∧
    (123/2 : ℚ) ≠ 1010 := by
  refine ⟨?_, ?_, by norm_num⟩
  · norm_num [firstChildY, TransformedLayer.childList, TransformedLayer.children,
      TransformedLayer.coords, transformLayer, transformLayers, mkCtx,
      resolveTransform, findOverride, min_def, max_def,
      MAX_BOUNDARY_VIOLATION_PERCENT,
      (by decide : ¬ ("root" : String) = "d")]
  · norm_num [geomOfY, mkCtx, resolveTransform, min_def]

/-- Claim C5, amended: an override replaces the element's position with the
target origin plus the override offset — X exactly, Y through the
vertical clamp — multiplies the effective scale by `individualScale`,
and hands its children the induced (pre-clamp) delta; an element without
an override is placed at its pure-geometric position plus the inherited
delta (X exactly, Y through the clamp, hence exactly whenever the value
lies inside the bleed band) and passes the same delta through unchanged;
in the §8 scenario the overridden root lands at `(15, 15)` with final
size `{50, 100}`. -/
theorem C5_override_and_delta_propagation :
    (∀ (ctx : TransformCtx) (l : SerializableLayer) (dX dY : ℚ)
        (o : LayerOverride), findOverride ctx.strategy l.id = some o →
        (transformLayer ctx l dX dY).coords.x = ctx.targetRect.x + o.xOffset ∧
        (transformLayer ctx l dX dY).coords.y =
          clampY ctx.targetRect (ctx.targetRect.y + o.yOffset) ∧
        (transformLayer ctx l dX dY).transform.scaleX =
          ctx.scale * o.individualScale ∧
        (transformLayer ctx l dX dY).transform.scaleY =
          ctx.scale * o.individualScale ∧
        (transformLayer ctx l dX dY).childList =
          transformLayers ctx l.childList
            ((ctx.targetRect.x + o.xOffset) - geomOfX ctx l.coords)
            ((ctx.targetRect.y + o.yOffset) - geomOfY ctx l.coords)) ∧
    (∀ (ctx : TransformCtx) (l : SerializableLayer) (dX dY : ℚ),
        findOverride ctx.strategy l.id = none →
        (transformLayer ctx l dX dY).coords.x = geomOfX ctx l.coords + dX ∧
        (transformLayer ctx l dX dY).coords.y =
          clampY ctx.targetRect (geomOfY ctx l.coords + dY) ∧
        (transformLayer ctx l dX dY).childList =
          transformLayers ctx l.childList dX dY) ∧
    (∀ (ctx : TransformCtx) (l : SerializableLayer) (dX dY : ℚ),
        findOverride ctx.strategy l.id = none →
        ctx.targetRect.y - ctx.targetRect.h * MAX_BOUNDARY_VIOLATION_PERCENT ≤
          geomOfY ctx l.coords + dY →
        geomOfY ctx l.coords + dY ≤
          ctx.targetRect.y + ctx.targetRect.h +
            ctx.targetRect.h * MAX_BOUNDARY_VIOLATION_PERCENT →
        (transformLayer ctx l dX dY).coords.y = geomOfY ctx l.coords + dY) ∧
    (transformLayer
        (mkCtx ⟨0, 0, 100, 200⟩ ⟨10, 10, 50, 50⟩
          (some ⟨1/4, .CENTER, "", "", some [⟨"root", 5, 5, 2⟩], none⟩))
        (.mk "root" "root" .group true 1 ⟨0, 0, 100, 200⟩ none) 0 0).coords =
      ⟨15, 15, 50, 100⟩ := by
  refine ⟨?_, ?_, ?_, ?_⟩
  · intro ctx l dX dY o h
    rw [transformLayer_override ctx l dX dY o h]
    refine ⟨by simp [TransformedLayer.coords], by simp [TransformedLayer.coords],
      by simp [TransformedLayer.transform], by simp [TransformedLayer.transform], ?_⟩
    cases hc : l.children with
    | none =>
        simp [TransformedLayer.childList, TransformedLayer.children,
          SerializableLayer.childList, hc, transformLayers]
    | some cs =>
        simp [TransformedLayer.childList, TransformedLayer.children,
          SerializableLayer.childList, hc]
  · intro ctx l dX dY h
    rw [transformLayer_no_override ctx l dX dY h]
    refine ⟨by simp [TransformedLayer.coords], by simp [TransformedLayer.coords], ?_⟩
    cases hc : l.children with
    | none =>
        simp [TransformedLayer.childList, TransformedLayer.children,
          SerializableLayer.childList, hc, transformLayers]
    | some cs =>
        simp [TransformedLayer.childList, TransformedLayer.children,
          SerializableLayer.childList, hc]
  · intro ctx l dX dY h hlo hhi
    rw [transformLayer_no_override ctx l dX dY h]
    simp only [TransformedLayer.coords, clampY]
    rw [min_eq_left hhi, max_eq_right hlo]
  · norm_num [transformLayer, mkCtx, resolveTransform, findOverride,
      TransformedLayer.coords, min_def, max_def, MAX_BOUNDARY_VIOLATION_PERCENT]

/-- Witness for C5: the override equations applied at the §8 scenario
(override `{5, 5, 2}` on the root). -/
theorem C5_override_witness :
    (transformLayer
        (mkCtx ⟨0, 0, 100, 200⟩ ⟨10, 10, 50, 50⟩
          (some ⟨1/4, .CENTER, "", "", some [⟨"root", 5, 5, 2⟩], none⟩))
        (.mk "root" "root" .group true 1 ⟨0, 0, 100, 200⟩ none) 0 0).coords.x =
      10 + 5 :=
  (C5_override_and_delta_propagation.1
    (mkCtx ⟨0, 0, 100, 200⟩ ⟨10, 10, 50, 50⟩
      (some ⟨1/4, .CENTER, "", "", some [⟨"root", 5, 5, 2⟩], none⟩))
    (.mk "root" "root" .group true 1 ⟨0, 0, 100, 200⟩ none) 0 0
    ⟨"root", 5, 5, 2⟩ rfl).1

/-! ## Claim C9 — the induced delta is taken before the vertical clamp -/

/-- Claim C9: the delta an overridden element hands to its children is computed
from the pre-clamp override position (`currentDeltaY = finalY - geomY` is
assigned before the clamp reassigns `finalY`), so clamping the element's
own Y never changes what its children inherit; concretely, with override
`{0, 60, 1}` on the root (pre-clamp Y `70`, clamped to `61.5`), the first
child is placed at `60 = 0 + (70 - 10)` — as if the root had not been
clamped — and the second child, whose inherited position `-30` leaves the
band, is clamped independently to `8.5`. -/
theorem C9_delta_from_preclamp_position :
    (∀ (ctx : TransformCtx) (l : SerializableLayer) (dX dY : ℚ)
        (o : LayerOverride), findOverride ctx.strategy l.id = some o →
        (transformLayer ctx l dX dY).childList =
          transformLayers ctx l.childList
            ((ctx.targetRect.x + o.xOffset) - geomOfX ctx l.coords)
            ((ctx.targetRect.y + o.yOffset) - geomOfY ctx l.coords)) ∧
    ((transformLayer
        (mkCtx ⟨0, 0, 100, 200⟩ ⟨10, 10, 50, 50⟩
          (some ⟨1/4, .CENTER, "", "", some [⟨"root", 0, 60, 1⟩], none⟩))
        (.mk "root" "root" .group true 1 ⟨0, 0, 100, 200⟩
          (some [.mk "d" "d" .layer true 1 ⟨0, -40, 10, 10⟩ none,
                 .mk "e" "e" .layer true 1 ⟨0, -400, 10, 10⟩ none])) 0 0).coords.y =
      123/2 ∧
    (123/2 : ℚ) ≠ 10 + 60 ∧
    (transformLayer
        (mkCtx ⟨0, 0, 100, 200⟩ ⟨10, 10, 50, 50⟩
          (some ⟨1/4, .CENTER, "", "", some [⟨"root", 0, 60, 1⟩], none⟩))
        (.mk "root" "root" .group true 1 ⟨0, 0, 100, 200⟩
          (some [.mk "d" "d" .layer true 1 ⟨0, -40, 10, 10⟩ none,
                 .mk "e" "e" .layer true 1 ⟨0, -400, 10, 10⟩ none])) 0 0).childList =
      [.mk "d" "d" .layer true 1 ⟨10, 60, 5/2, 5/2⟩ ⟨1/4, 1/4, 10, 60⟩ none,
       .mk "e" "e" .layer true 1 ⟨10, 17/2, 5/2, 5/2⟩ ⟨1/4, 1/4, 10, 17/2⟩ none]) := by
  refine ⟨fun ctx l dX dY o h => childList_transformLayer_override ctx l dX dY o h,
    ?_, by norm_num, ?_⟩
  · norm_num [transformLayer, mkCtx, resolveTransform, findOverride,
      TransformedLayer.coords, min_def, max_def, MAX_BOUNDARY_VIOLATION_PERCENT]
  · norm_num [transformLayer, transformLayers, mkCtx, resolveTransform,
      findOverride, TransformedLayer.childList, TransformedLayer.children,
      TransformedLayer.coords, min_def, max_def, MAX_BOUNDARY_VIOLATION_PERCENT,
      (by decide : ¬ ("root" : String) = "d"),
      (by decide : ¬ ("root" : String) = "e")]

/-- Witness for C9: the pre-clamp delta equation applied at the concrete
clamped-root scenario. -/
theorem C9_delta_from_preclamp_witness :
    (transformLayer
        (mkCtx ⟨0, 0, 100, 200⟩ ⟨10, 10, 50, 50⟩
          (some ⟨1/4, .CENTER, "", "", some [⟨"root", 0, 60, 1⟩], none⟩))
        (.mk "root" "root" .group true 1 ⟨0, 0, 100, 200⟩
          (some [.mk "d" "d" .layer true 1 ⟨0, -40, 10, 10⟩ none,
                 .mk "e" "e" .layer true 1 ⟨0, -400, 10, 10⟩ none])) 0 0).childList =
      transformLayers
        (mkCtx ⟨0, 0, 100, 200⟩ ⟨10, 10, 50, 50⟩
          (some ⟨1/4, .CENTER, "", "", some [⟨"root", 0, 60, 1⟩], none⟩))
        (SerializableLayer.childList
          (.mk "root" "root" .group true 1 ⟨0, 0, 100, 200⟩
            (some [.mk "d" "d" .layer true 1 ⟨0, -40, 10, 10⟩ none,
                   .mk "e" "e" .layer true 1 ⟨0, -400, 10, 10⟩ none])))
        (((mkCtx ⟨0, 0, 100, 200⟩ ⟨10, 10, 50, 50⟩
            (some ⟨1/4, .CENTER, "", "", some [⟨"root", 0, 60, 1⟩], none⟩)).targetRect.x + 0) -
          geomOfX (mkCtx ⟨0, 0, 100, 200⟩ ⟨10, 10, 50, 50⟩
            (some ⟨1/4, .CENTER, "", "", some [⟨"root", 0, 60, 1⟩], none⟩)) ⟨0, 0, 100, 200⟩)
        (((mkCtx ⟨0, 0, 100, 200⟩ ⟨10, 10, 50, 50⟩
            (some ⟨1/4, .CENTER, "", "", some [⟨"root", 0, 60, 1⟩], none⟩)).targetRect.y + 60) -
          geomOfY (mkCtx ⟨0, 0, 100, 200⟩ ⟨10, 10, 50, 50⟩
            (some ⟨1/4, .CENTER, "", "", some [⟨"root", 0, 60, 1⟩], none⟩)) ⟨0, 0, 100, 200⟩) :=
  C9_delta_from_preclamp_position.1
    (mkCtx ⟨0, 0, 100, 200⟩ ⟨10, 10, 50, 50⟩
      (some ⟨1/4, .CENTER, "", "", some [⟨"root", 0, 60, 1⟩], none⟩))
    (.mk "root" "root" .group true 1 ⟨0, 0, 100, 200⟩
      (some [.mk "d" "d" .layer true 1 ⟨0, -40, 10, 10⟩ none,
             .mk "e" "e" .layer true 1 ⟨0, -400, 10, 10⟩ none])) 0 0
    ⟨"root", 0, 60, 1⟩ rfl

/-! ## Claim C2 — missing identifier lookups during reconstruction

The spec says a transformed element whose identifier cannot be found in
the original document is a hard failure (`MissingOriginalContent`) that
aborts the build.  The loop of lines 94-118 reads
`if (originalLayer) { ... }` with no else branch: an element whose
identifier the lookup does not resolve is silently dropped and the loop
continues with the remaining elements.  (The `throw` of line 132 concerns
a different failure — the whole source document missing from the binary
registry — not a missing identifier.) -/

/-- Claim C2 counterexample: identifier `"X"` is absent from the original
document, yet reconstruction neither fails nor aborts — it skips the
element and still rebuilds the sibling `"Y"`, returning a one-element
output for the two-element input. -/
theorem C2_counterexample_silent_skip :
    findLayerByPath (Psd.mk 100 100
        [.mk "Y" "bg" 0 0 50 50 false 255 false "normal" none]) "X" = none ∧
    reconstructHierarchy
        [.mk "X" "x" .layer true 1 ⟨1, 2, 3, 4⟩ ⟨1, 1, 1, 2⟩ none,
         .mk "Y" "y" .layer true (1/2) ⟨5, 6, 7, 8⟩ ⟨1, 1, 5, 6⟩ none]
        (Psd.mk 100 100
          [.mk "Y" "bg" 0 0 50 50 false 255 false "normal" none]) =
      [.mk "Y" "bg" 6 5 (6 + 8) (5 + 7) false (1/2 * 255) false "normal" none] := by
  constructor
  · rfl
  · rfl

/-- Claim C2, amended: each transformed element is looked up by stable
identifier in the original document; an element whose identifier is not
found is silently omitted from the reconstruction — the output consists
of exactly the elements whose lookup succeeds, and the build continues
past every missing one (in particular, when every identifier resolves,
the output has one layer per input element). -/
theorem C2_missing_lookup_skips :
    (∀ (layers : List TransformedLayer) (psd : Psd),
        (reconstructHierarchy layers psd).length =
          (layers.filter (fun m => (findLayerByPath psd m.id).isSome)).length) ∧
    (∀ (layers : List TransformedLayer) (psd : Psd),
        (∀ m ∈ layers, (findLayerByPath psd m.id).isSome = true) →
        (reconstructHierarchy layers psd).length = layers.length) := by
  have key : ∀ (psd : Psd) (layers : List TransformedLayer),
      (reconstructHierarchy layers psd).length =
        (layers.filter (fun m => (findLayerByPath psd m.id).isSome)).length := by
    intro psd layers
    induction layers with
    | nil => simp [reconstructHierarchy]
    | cons m rest ih =>
        cases hf : findLayerByPath psd m.id with
        | none =>
            simp only [reconstructHierarchy, hf, List.filter_cons,
              Option.isSome_none, Bool.false_eq_true, if_false]
            exact ih
        | some ol =>
            simp only [reconstructHierarchy, hf, List.filter_cons,
              Option.isSome_some, if_true, List.length_cons]
            exact congrArg Nat.succ ih
  refine ⟨fun layers psd => key psd layers, fun layers psd hall => ?_⟩
  rw [key psd layers, List.filter_eq_self.mpr hall]

/-- Witness for C2: with every identifier present the reconstruction
keeps one layer per element. -/
theorem C2_missing_lookup_skips_witness :
    (reconstructHierarchy
        [.mk "Y" "y" .layer true (1/2) ⟨5, 6, 7, 8⟩ ⟨1, 1, 5, 6⟩ none]
        (Psd.mk 100 100
          [.mk "Y" "bg" 0 0 50 50 false 255 false "normal" none])).length =
      [TransformedLayer.mk "Y" "y" .layer true (1/2) ⟨5, 6, 7, 8⟩
        ⟨1, 1, 5, 6⟩ none].length :=
  C2_missing_lookup_skips.2
    [.mk "Y" "y" .layer true (1/2) ⟨5, 6, 7, 8⟩ ⟨1, 1, 5, 6⟩ none]
    (Psd.mk 100 100 [.mk "Y" "bg" 0 0 50 50 false 255 false "normal" none])
    (by
      intro m hm
      rw [List.mem_singleton.mp hm]
      rfl)

/-! ## Claim C1 — validator scenario -/


/-- Processing a correctly-declared scenario edge records the slot in the
connection map (appending, as the slot is not yet present) and adds no
violation. -/
theorem processEdge_good (bad nm : String) (hnm : nm ≠ bad)
    (acc : List (String × TransformedPayload) × List String)
    (hnew : ∀ kv ∈ acc.1, kv.1 ≠ nm) :
    processEdge "export-1" (scenarioRegistry bad) acc (mkSlotEdge nm) =
      (acc.1 ++ [(nm, mkSlotPayload nm)], acc.2) := by
  unfold processEdge mkSlotEdge
  simp only [ne_eq, not_true_eq_false, if_false, startsWithInput_append,
    if_true, stripInputTag_append, scenarioRegistry, strDrop_src_append,
    if_neg hnm, Option.getD, mkSlotPayload]
  rw [mapSet_of_new acc.1 nm _ hnew]

/-- Processing the miswired scenario edge records a violation and leaves
the connection map unchanged. -/
theorem processEdge_bad (bad : String)
    (acc : List (String × TransformedPayload) × List String) :
    processEdge "export-1" (scenarioRegistry bad) acc (mkSlotEdge bad) =
      (acc.1, acc.2 ++ [violationMsg ("X" ++ bad) bad]) := by
  unfold processEdge mkSlotEdge
  simp only [ne_eq, not_true_eq_false, if_false, startsWithInput_append,
    if_true, stripInputTag_append, scenarioRegistry, strDrop_src_append,
    if_pos rfl, Option.getD, mkSlotPayload]
  rw [if_neg (mismatch_tag_ne bad)]

/-- Folding the correctly-declared scenario edges appends one connection
per (distinct) slot name and produces no violations. -/
theorem fold_good_edges (bad : String) (good : List String)
    (hnd : good.Nodup) (hb : ∀ nm ∈ good, nm ≠ bad) :
    ∀ (acc : List (String × TransformedPayload) × List String),
      (∀ nm ∈ good, ∀ kv ∈ acc.1, kv.1 ≠ nm) →
      (good.map mkSlotEdge).foldl
          (processEdge "export-1" (scenarioRegistry bad)) acc =
        (acc.1 ++ good.map (fun nm => (nm, mkSlotPayload nm)), acc.2) := by
  induction good with
  | nil =>
      intro acc _
      simp
  | cons nm rest ih =>
      intro acc hdisj
      simp only [List.map_cons, List.foldl_cons]
      rw [processEdge_good bad nm (hb nm (by simp)) acc (hdisj nm (by simp))]
      rw [ih hnd.of_cons (fun x hx => hb x (by simp [hx]))
        (acc.1 ++ [(nm, mkSlotPayload nm)], acc.2) ?_]
      · simp
      · intro x hx kv hkv
        rcases List.mem_append.mp hkv with h1 | h1
        · exact hdisj x (by simp [hx]) kv h1
        · rw [List.mem_singleton.mp h1]
          intro hEq
          have hEq2 : nm = x := hEq
          exact (List.nodup_cons.mp hnd).1 (hEq2 ▸ hx)

/-- Claim C1: the assembly is export-ready iff a template is resolved, the
number of correctly-matched filled slots equals the total slot count,
the slot count is positive, and no violations exist; and in the N-slot
scenario in which N-1 wirings declare their occupied slot and one
payload declares a different destination, the mismatch is recorded as a
violation and counted as unfilled: `filled = N-1`,
`violations.length = 1`, `isFullyAssembled = false`. -/
theorem C1_validator_export_readiness :
    (∀ (tm : Option TemplateMetadata) (nodeId : String)
        (edges : List FlowEdge) (reg : PayloadRegistry),
        isFullyAssembled tm nodeId edges reg = true ↔
          (tm.isSome = true ∧
           (slotConnections nodeId edges reg).1.length =
             (containersOf tm).length ∧
           0 < (containersOf tm).length ∧
           (slotConnections nodeId edges reg).2.length = 0)) ∧
    (∀ (good : List String) (bad : String), good.Nodup → bad ∉ good →
        (slotConnections "export-1" ((good ++ [bad]).map mkSlotEdge)
            (scenarioRegistry bad)).1.length = good.length ∧
        (slotConnections "export-1" ((good ++ [bad]).map mkSlotEdge)
            (scenarioRegistry bad)).2.length = 1 ∧
        isFullyAssembled (some (scenarioTemplate (good ++ [bad]))) "export-1"
          ((good ++ [bad]).map mkSlotEdge) (scenarioRegistry bad) = false) := by
  constructor
  · intro tm nodeId edges reg
    simp only [isFullyAssembled, Bool.and_eq_true, beq_iff_eq,
      decide_eq_true_eq]
    tauto
  · intro good bad hnd hbad
    have hb : ∀ nm ∈ good, nm ≠ bad := by
      intro nm h hEq
      exact hbad (hEq ▸ h)
    have hfold : slotConnections "export-1" ((good ++ [bad]).map mkSlotEdge)
        (scenarioRegistry bad) =
        (good.map (fun nm => (nm, mkSlotPayload nm)),
         [violationMsg ("X" ++ bad) bad]) := by
      unfold slotConnections
      rw [List.map_append, List.foldl_append]
      rw [fold_good_edges bad good hnd hb ([], []) (by simp)]
      simp only [List.nil_append, List.map_cons, List.map_nil,
        List.foldl_cons, List.foldl_nil]
      rw [processEdge_bad bad]
      simp
    refine ⟨?_, ?_, ?_⟩
    · rw [hfold]
      simp
    · rw [hfold]
      simp
    · simp only [isFullyAssembled, hfold]
      simp [scenarioTemplate, containersOf]

/-- Witness for C1: the three-slot instance `A`, `B` matched and `C`
miswired reports 2 of 3 slots filled, one violation, and a disabled
export. -/
theorem C1_validator_witness :
    (slotConnections "export-1" ((["A", "B"] ++ ["C"]).map mkSlotEdge)
        (scenarioRegistry "C")).1.length = 2 ∧
    (slotConnections "export-1" ((["A", "B"] ++ ["C"]).map mkSlotEdge)
        (scenarioRegistry "C")).2.length = 1 ∧
    isFullyAssembled (some (scenarioTemplate (["A", "B"] ++ ["C"]))) "export-1"
      ((["A", "B"] ++ ["C"]).map mkSlotEdge) (scenarioRegistry "C") = false :=
  C1_validator_export_readiness.2 ["A", "B"] "C" (by decide) (by decide)
